import Mathlib

/-!
Verification development for the Virtuyal air-quality dashboard frontend
(`DataMainpage.js`, `LoginLogic.js`).

The JavaScript is shallowly embedded: DOM access and `fetch` are replaced by
explicit inputs (responses are values of inductive types), mutation of the
module-level state (`sensors`, `offlineSensors`, `localStorage`, the cached
history series) becomes explicit state passing, and JS runtime values that the
code inspects dynamically (`typeof x === 'number'`, truthiness, `??`, `||`)
are modelled by the inductive type `JSVal`.  JSON numbers are carried as
rationals (the code never does arithmetic on them, only stores and compares),
and where the code stringifies a backend number for CSV output the value is
carried in its string form.  Wall-clock formatting (`new Date(...)`,
`toLocaleTimeString`) is passed in as an opaque label/formatter argument.
-/

namespace Virtuyal

/-- A JavaScript runtime value as far as `DataMainpage.js` inspects one:
`undefined`, `null`, booleans, numbers and strings. -/
inductive JSVal where
  | undef : JSVal
  | jnull : JSVal
  | jbool : Bool → JSVal
  | jnum : Rat → JSVal
  | jstr : String → JSVal
deriving DecidableEq, Repr

namespace JSVal

/-- JS truthiness of a value (`if (x)`): `undefined`, `null`, `false`,
`0` and `''` are falsy, everything else truthy. -/
def truthy : JSVal → Bool
  | undef => false
  | jnull => false
  | jbool b => b
  | jnum q => q ≠ 0
  | jstr s => s ≠ ""

/-- `x ?? y`: nullish coalescing, i.e. `y` exactly when `x` is
`null` or `undefined`. -/
def coalesce (x y : JSVal) : JSVal :=
  match x with
  | undef => y
  | jnull => y
  | v => v

/-- `x || y`: `y` exactly when `x` is falsy. -/
def jsOr (x y : JSVal) : JSVal :=
  if x.truthy then x else y

/-- `typeof x === 'number'`, returning the number when it is one. -/
def asNumber : JSVal → Option Rat
  | jnum q => some q
  | _ => none

/-- `x === null || x === undefined` (what `??` tests). -/
def nullish : JSVal → Bool
  | undef => true
  | jnull => true
  | _ => false

end JSVal

open JSVal

/-- JS `s.toLowerCase()`, character-wise lowercasing (the strings compared
in this code are ASCII, where `Char.toLower` and JS agree). -/
def jsToLower (s : String) : String := ⟨s.data.map Char.toLower⟩

/-- `const SENSOR_COUNT = 5` (`DataMainpage.js` line 20). -/
def SENSOR_COUNT : Nat := 5

/-- `const WINDOW_SIZE = 5` (`DataMainpage.js` line 25). -/
def WINDOW_SIZE : Nat := 5

/-- The raw measurement payload handed to `Sensor.addMeasurement`: a JS object
whose fields may each be `undefined` (absent), `null`, a number, or any other
value.  Field names follow the backend keys read at lines 124-145. -/
structure RawObj where
  temp : JSVal := .undef
  co2 : JSVal := .undef
  hum : JSVal := .undef
  pm2_5 : JSVal := .undef
  pm10 : JSVal := .undef
  pm_3 : JSVal := .undef
  pm0_3 : JSVal := .undef
  pm1_0 : JSVal := .undef
  pm1 : JSVal := .undef
  tvoc : JSVal := .undef
  aqi : JSVal := .undef
  co : JSVal := .undef
  hcho : JSVal := .undef
deriving DecidableEq, Repr

/-- The `Sensor` class state (`DataMainpage.js` lines 63-108): metadata,
the rolling numeric series, the time labels and the last-known scalar
values. -/
structure Sensor where
  id : Nat
  deviceId : JSVal
  deviceName : JSVal
  classroomNumber : JSVal
  status : JSVal
  timeLabels : List String := []
  tempData : List Rat := []
  co2Data : List Rat := []
  humidityData : List Rat := []
  pm25Data : List Rat := []
  pm10Data : List Rat := []
  pm03Data : List Rat := []
  pm1Data : List Rat := []
  tvocData : List Rat := []
  aqiData : List Rat := []
  coData : List Rat := []
  hchoData : List Rat := []
  humidity : JSVal := .jnull
  pm25 : JSVal := .jnull
  pm1_0 : JSVal := .jnull
  pm1 : JSVal := .jnull
  tvoc : JSVal := .jnull
  aqi : JSVal := .jnull
  co : JSVal := .jnull
  hcho : JSVal := .jnull
  pm10 : JSVal := .jnull
  pm03 : JSVal := .jnull
  lastRaw : Option RawObj := none
deriving DecidableEq, Repr

/-- The `Sensor(id, deviceId, deviceName, classroomNumber, status)`
constructor: all series empty, all last-value scalars `null`. -/
def mkSensor (id : Nat) (deviceId deviceName classroomNumber status : JSVal) :
    Sensor :=
  { id := id, deviceId := deviceId, deviceName := deviceName,
    classroomNumber := classroomNumber, status := status }

/-- The trimming loop `while(arr.length > WINDOW_SIZE) arr.shift()`
(`DataMainpage.js` lines 147-151): repeatedly drop the first element while
the list is longer than the window. -/
def trimWhile (l : List α) : List α :=
  if l.length > WINDOW_SIZE then trimWhile l.tail else l
termination_by l.length
decreasing_by simp [List.length_tail]; omega

/-- The value (if any) pushed onto `tempData` for a payload:
`if(typeof raw.temp === 'number') this.tempData.push(raw.temp)`. -/
def pushTemp (r : RawObj) : Option Rat := r.temp.asNumber

/-- Value pushed onto `co2Data`. -/
def pushCo2 (r : RawObj) : Option Rat := r.co2.asNumber

/-- Value pushed onto `humidityData` (from `raw.hum`). -/
def pushHum (r : RawObj) : Option Rat := r.hum.asNumber

/-- Value pushed onto `pm25Data` (from `raw.pm2_5`). -/
def pushPm25 (r : RawObj) : Option Rat := r.pm2_5.asNumber

/-- Value pushed onto `pm10Data`. -/
def pushPm10 (r : RawObj) : Option Rat := r.pm10.asNumber

/-- Value pushed onto `pm03Data`: `raw.pm_3` when it is a number, else
`raw.pm0_3` when that is a number (line 129). -/
def pushPm03 (r : RawObj) : Option Rat :=
  match r.pm_3.asNumber with
  | some q => some q
  | none => r.pm0_3.asNumber

/-- Value pushed onto `pm1Data`: `raw.pm1_0` when a number, else `raw.pm1`
when a number (line 130). -/
def pushPm1 (r : RawObj) : Option Rat :=
  match r.pm1_0.asNumber with
  | some q => some q
  | none => r.pm1.asNumber

/-- Value pushed onto `tvocData`. -/
def pushTvoc (r : RawObj) : Option Rat := r.tvoc.asNumber

/-- Value pushed onto `aqiData`. -/
def pushAqi (r : RawObj) : Option Rat := r.aqi.asNumber

/-- Value pushed onto `coData`. -/
def pushCo (r : RawObj) : Option Rat := r.co.asNumber

/-- Value pushed onto `hchoData`. -/
def pushHcho (r : RawObj) : Option Rat := r.hcho.asNumber

/-- `Sensor.addMeasurement(raw)` (`DataMainpage.js` lines 117-152).
`raw = none` models a `null`/non-object argument (line 118 guard);
`label` is the `toLocaleTimeString` label computed at line 121 (the clock
is external to the model).  The method first conditionally pushes onto each
numeric series and always pushes the time label, then updates the last-value
scalars with `??` fallbacks, then trims every series to the window. -/
def Sensor.addMeasurement (s : Sensor) (raw : Option RawObj) (label : String) :
    Sensor :=
  match raw with
  | none => s
  | some r =>
    -- pushes (lines 122-134) and scalar updates (lines 136-145)
    let s1 : Sensor :=
      { s with
        lastRaw := some r
        timeLabels := s.timeLabels ++ [label]
        tempData := s.tempData ++ (pushTemp r).toList
        co2Data := s.co2Data ++ (pushCo2 r).toList
        humidityData := s.humidityData ++ (pushHum r).toList
        pm25Data := s.pm25Data ++ (pushPm25 r).toList
        pm10Data := s.pm10Data ++ (pushPm10 r).toList
        pm03Data := s.pm03Data ++ (pushPm03 r).toList
        pm1Data := s.pm1Data ++ (pushPm1 r).toList
        tvocData := s.tvocData ++ (pushTvoc r).toList
        aqiData := s.aqiData ++ (pushAqi r).toList
        coData := s.coData ++ (pushCo r).toList
        hchoData := s.hchoData ++ (pushHcho r).toList
        humidity := r.hum.coalesce s.humidity
        pm25 := r.pm2_5.coalesce s.pm25
        pm1_0 := r.pm1_0.coalesce s.pm1_0
        pm1 := r.pm1_0.coalesce (r.pm1.coalesce s.pm1)
        tvoc := r.tvoc.coalesce s.tvoc
        aqi := r.aqi.coalesce s.aqi
        co := r.co.coalesce s.co
        hcho := r.hcho.coalesce s.hcho
        pm10 := r.pm10.coalesce s.pm10
        pm03 := r.pm_3.coalesce (r.pm0_3.coalesce s.pm03) }
    -- window trimming (lines 147-151)
    { s1 with
      tempData := trimWhile s1.tempData
      co2Data := trimWhile s1.co2Data
      humidityData := trimWhile s1.humidityData
      pm25Data := trimWhile s1.pm25Data
      pm10Data := trimWhile s1.pm10Data
      pm03Data := trimWhile s1.pm03Data
      pm1Data := trimWhile s1.pm1Data
      tvocData := trimWhile s1.tvocData
      aqiData := trimWhile s1.aqiData
      coData := trimWhile s1.coData
      hchoData := trimWhile s1.hchoData
      timeLabels := trimWhile s1.timeLabels }

/-- The suffix of at most `WINDOW_SIZE` most-recent elements of a list
(the oldest elements removed first). -/
def lastWindow (l : List α) : List α :=
  l.drop (l.length - WINDOW_SIZE)

theorem trimWhile_eq_aux : ∀ (n : Nat) (l : List α), l.length ≤ n →
    trimWhile l = lastWindow l := by
  intro n
  induction n with
  | zero =>
    intro l h
    rw [trimWhile]
    have h0 : l.length = 0 := Nat.le_zero.mp h
    simp [lastWindow, h0]
  | succ n ih =>
    intro l h
    rw [trimWhile]
    split
    · next hlen =>
      have hW : WINDOW_SIZE = 5 := rfl
      have ht : l.tail.length ≤ n := by
        simp [List.length_tail]; omega
      rw [ih l.tail ht]
      cases l with
      | nil => simp at hlen
      | cons a t =>
        have hgt : t.length ≥ WINDOW_SIZE := by
          simp at hlen; omega
        unfold lastWindow
        simp only [List.tail_cons, List.length_cons]
        have harith : t.length + 1 - WINDOW_SIZE = (t.length - WINDOW_SIZE) + 1 := by
          omega
        rw [harith, List.drop_succ_cons]
    · next hlen =>
      have h0 : l.length - WINDOW_SIZE = 0 := by omega
      simp [lastWindow, h0]

theorem trimWhile_eq (l : List α) : trimWhile l = lastWindow l :=
  trimWhile_eq_aux l.length l le_rfl

theorem length_lastWindow_le (l : List α) :
    (lastWindow l).length ≤ WINDOW_SIZE := by
  simp [lastWindow]
  omega

theorem lastWindow_idem (l : List α) : lastWindow (lastWindow l) = lastWindow l := by
  unfold lastWindow
  have h0 : (l.drop (l.length - WINDOW_SIZE)).length - WINDOW_SIZE = 0 := by
    simp [List.length_drop]; omega
  rw [h0, List.drop_zero]

theorem lastWindow_append_single (xs : List α) (y : α) :
    lastWindow (lastWindow xs ++ [y]) = lastWindow (xs ++ [y]) := by
  have hW : WINDOW_SIZE = 5 := rfl
  unfold lastWindow
  rcases le_or_lt xs.length WINDOW_SIZE with h | h
  · have h0 : xs.length - WINDOW_SIZE = 0 := by omega
    rw [h0, List.drop_zero]
  · have hlen : (xs.drop (xs.length - WINDOW_SIZE)).length = WINDOW_SIZE := by
      simp [List.length_drop]; omega
    rw [List.drop_append_eq_append_drop, List.drop_append_eq_append_drop,
      List.drop_drop]
    congr 2
    · simp [hlen, List.length_drop, List.length_append]
      omega
    · simp [hlen, List.length_drop, List.length_append]
      omega

theorem lastWindow_append_opt (xs : List α) (o : Option α) :
    lastWindow (lastWindow xs ++ o.toList) = lastWindow (xs ++ o.toList) := by
  cases o with
  | none => simpa using lastWindow_idem xs
  | some y => exact lastWindow_append_single xs y

theorem trimWhile_append_opt (xs : List α) (o : Option α) :
    trimWhile (lastWindow xs ++ o.toList) = lastWindow (xs ++ o.toList) := by
  rw [trimWhile_eq, lastWindow_append_opt]

/-- The last element of a window that just received `y` is `y`. -/
theorem getLast_lastWindow_concat (xs : List α) (y : α) :
    (lastWindow (xs ++ [y])).getLast? = some y := by
  have hW : WINDOW_SIZE = 5 := rfl
  unfold lastWindow
  have hle : (xs ++ [y]).length - WINDOW_SIZE ≤ xs.length := by
    simp [List.length_append]; omega
  rw [List.drop_append_of_le_length hle, List.getLast?_concat]

/-- A sequence of `addMeasurement` calls with object payloads, each paired
with the time label read from the clock at that call. -/
def runMeasurements (s : Sensor) (ms : List (RawObj × String)) : Sensor :=
  ms.foldl (fun s m => s.addMeasurement (some m.1) m.2) s

/-- Generic rolling-window invariant for one buffer of the sensor:
if a projection evolves by push-then-trim under `addMeasurement`, folding a
call sequence keeps it equal to the window of all values ever pushed. -/
theorem foldBuffer_lastWindow {α : Type} (proj : Sensor → List α)
    (pushf : RawObj × String → Option α)
    (hcomm : ∀ (s : Sensor) (r : RawObj) (lbl : String),
      proj (s.addMeasurement (some r) lbl) =
        trimWhile (proj s ++ (pushf (r, lbl)).toList)) :
    ∀ (ms : List (RawObj × String)) (s : Sensor) (acc : List α),
      proj s = lastWindow acc →
      proj (runMeasurements s ms) = lastWindow (acc ++ ms.filterMap pushf) := by
  intro ms
  induction ms with
  | nil =>
    intro s acc h
    simpa [runMeasurements] using h
  | cons m rest ih =>
    intro s acc h
    have hstep : proj (s.addMeasurement (some m.1) m.2) =
        lastWindow (acc ++ (pushf m).toList) := by
      rw [hcomm, h]
      exact trimWhile_append_opt acc (pushf m)
    have hrec := ih (s.addMeasurement (some m.1) m.2)
      (acc ++ (pushf m).toList) hstep
    have hms : runMeasurements s (m :: rest) =
        runMeasurements (s.addMeasurement (some m.1) m.2) rest := rfl
    rw [hms, hrec]
    rcases hpm : pushf m with _ | x <;>
      simp [List.filterMap_cons, hpm, List.append_assoc]

/-- `x ?? y` written out: keep `y` exactly when `x` is `null`/`undefined`. -/
theorem coalesce_eq_ite (x y : JSVal) :
    x.coalesce y = if x.nullish then y else x := by
  cases x <;> rfl

/-- C1 (rolling-window invariant): starting from a freshly constructed
`Sensor`, after any sequence of `addMeasurement` calls with object arguments
each of the eleven numeric series and the `timeLabels` array equals the
window of the values ever pushed to it — the most recent at most
`WINDOW_SIZE = 5`, the oldest removed first — and hence has length at most
`WINDOW_SIZE`. -/
theorem C1_rolling_window_invariant (id : Nat) (did nm cls st : JSVal)
    (ms : List (RawObj × String)) :
    ((runMeasurements (mkSensor id did nm cls st) ms).tempData
        = lastWindow (ms.filterMap fun m => pushTemp m.1)
      ∧ (runMeasurements (mkSensor id did nm cls st) ms).tempData.length ≤ WINDOW_SIZE)
  ∧ ((runMeasurements (mkSensor id did nm cls st) ms).co2Data
        = lastWindow (ms.filterMap fun m => pushCo2 m.1)
      ∧ (runMeasurements (mkSensor id did nm cls st) ms).co2Data.length ≤ WINDOW_SIZE)
  ∧ ((runMeasurements (mkSensor id did nm cls st) ms).humidityData
        = lastWindow (ms.filterMap fun m => pushHum m.1)
      ∧ (runMeasurements (mkSensor id did nm cls st) ms).humidityData.length ≤ WINDOW_SIZE)
  ∧ ((runMeasurements (mkSensor id did nm cls st) ms).pm25Data
        = lastWindow (ms.filterMap fun m => pushPm25 m.1)
      ∧ (runMeasurements (mkSensor id did nm cls st) ms).pm25Data.length ≤ WINDOW_SIZE)
  ∧ ((runMeasurements (mkSensor id did nm cls st) ms).pm10Data
        = lastWindow (ms.filterMap fun m => pushPm10 m.1)
      ∧ (runMeasurements (mkSensor id did nm cls st) ms).pm10Data.length ≤ WINDOW_SIZE)
  ∧ ((runMeasurements (mkSensor id did nm cls st) ms).pm03Data
        = lastWindow (ms.filterMap fun m => pushPm03 m.1)
      ∧ (runMeasurements (mkSensor id did nm cls st) ms).pm03Data.length ≤ WINDOW_SIZE)
  ∧ ((runMeasurements (mkSensor id did nm cls st) ms).pm1Data
        = lastWindow (ms.filterMap fun m => pushPm1 m.1)
      ∧ (runMeasurements (mkSensor id did nm cls st) ms).pm1Data.length ≤ WINDOW_SIZE)
  ∧ ((runMeasurements (mkSensor id did nm cls st) ms).tvocData
        = lastWindow (ms.filterMap fun m => pushTvoc m.1)
      ∧ (runMeasurements (mkSensor id did nm cls st) ms).tvocData.length ≤ WINDOW_SIZE)
  ∧ ((runMeasurements (mkSensor id did nm cls st) ms).aqiData
        = lastWindow (ms.filterMap fun m => pushAqi m.1)
      ∧ (runMeasurements (mkSensor id did nm cls st) ms).aqiData.length ≤ WINDOW_SIZE)
  ∧ ((runMeasurements (mkSensor id did nm cls st) ms).coData
        = lastWindow (ms.filterMap fun m => pushCo m.1)
      ∧ (runMeasurements (mkSensor id did nm cls st) ms).coData.length ≤ WINDOW_SIZE)
  ∧ ((runMeasurements (mkSensor id did nm cls st) ms).hchoData
        = lastWindow (ms.filterMap fun m => pushHcho m.1)
      ∧ (runMeasurements (mkSensor id did nm cls st) ms).hchoData.length ≤ WINDOW_SIZE)
  ∧ ((runMeasurements (mkSensor id did nm cls st) ms).timeLabels
        = lastWindow (ms.map fun m => m.2)
      ∧ (runMeasurements (mkSensor id did nm cls st) ms).timeLabels.length ≤ WINDOW_SIZE) := by
  have hmap : (ms.filterMap fun m : RawObj × String => some m.2)
      = ms.map fun m => m.2 := by
    induction ms with
    | nil => rfl
    | cons m rest ih => simp [List.filterMap_cons, ih]
  have h1 := foldBuffer_lastWindow Sensor.tempData (fun m => pushTemp m.1)
    (fun _ _ _ => rfl) ms (mkSensor id did nm cls st) [] rfl
  have h2 := foldBuffer_lastWindow Sensor.co2Data (fun m => pushCo2 m.1)
    (fun _ _ _ => rfl) ms (mkSensor id did nm cls st) [] rfl
  have h3 := foldBuffer_lastWindow Sensor.humidityData (fun m => pushHum m.1)
    (fun _ _ _ => rfl) ms (mkSensor id did nm cls st) [] rfl
  have h4 := foldBuffer_lastWindow Sensor.pm25Data (fun m => pushPm25 m.1)
    (fun _ _ _ => rfl) ms (mkSensor id did nm cls st) [] rfl
  have h5 := foldBuffer_lastWindow Sensor.pm10Data (fun m => pushPm10 m.1)
    (fun _ _ _ => rfl) ms (mkSensor id did nm cls st) [] rfl
  have h6 := foldBuffer_lastWindow Sensor.pm03Data (fun m => pushPm03 m.1)
    (fun _ _ _ => rfl) ms (mkSensor id did nm cls st) [] rfl
  have h7 := foldBuffer_lastWindow Sensor.pm1Data (fun m => pushPm1 m.1)
    (fun _ _ _ => rfl) ms (mkSensor id did nm cls st) [] rfl
  have h8 := foldBuffer_lastWindow Sensor.tvocData (fun m => pushTvoc m.1)
    (fun _ _ _ => rfl) ms (mkSensor id did nm cls st) [] rfl
  have h9 := foldBuffer_lastWindow Sensor.aqiData (fun m => pushAqi m.1)
    (fun _ _ _ => rfl) ms (mkSensor id did nm cls st) [] rfl
  have h10 := foldBuffer_lastWindow Sensor.coData (fun m => pushCo m.1)
    (fun _ _ _ => rfl) ms (mkSensor id did nm cls st) [] rfl
  have h11 := foldBuffer_lastWindow Sensor.hchoData (fun m => pushHcho m.1)
    (fun _ _ _ => rfl) ms (mkSensor id did nm cls st) [] rfl
  have h12 := foldBuffer_lastWindow Sensor.timeLabels (fun m => some m.2)
    (fun _ _ _ => rfl) ms (mkSensor id did nm cls st) [] rfl
  rw [hmap] at h12
  simp only [List.nil_append] at h1 h2 h3 h4 h5 h6 h7 h8 h9 h10 h11 h12
  exact ⟨⟨h1, by rw [h1]; exact length_lastWindow_le _⟩,
    ⟨h2, by rw [h2]; exact length_lastWindow_le _⟩,
    ⟨h3, by rw [h3]; exact length_lastWindow_le _⟩,
    ⟨h4, by rw [h4]; exact length_lastWindow_le _⟩,
    ⟨h5, by rw [h5]; exact length_lastWindow_le _⟩,
    ⟨h6, by rw [h6]; exact length_lastWindow_le _⟩,
    ⟨h7, by rw [h7]; exact length_lastWindow_le _⟩,
    ⟨h8, by rw [h8]; exact length_lastWindow_le _⟩,
    ⟨h9, by rw [h9]; exact length_lastWindow_le _⟩,
    ⟨h10, by rw [h10]; exact length_lastWindow_le _⟩,
    ⟨h11, by rw [h11]; exact length_lastWindow_le _⟩,
    ⟨h12, by rw [h12]; exact length_lastWindow_le _⟩⟩

/-- C8 (conditional append and no-op frame): `addMeasurement` on a `null` or
non-object payload changes nothing; on an object payload each numeric series
receives exactly the value of its raw field when that field is a number
(and nothing otherwise, the two-key series `pm03Data`/`pm1Data` trying their
primary key first), `timeLabels` gains exactly the one new label, and each
last-value scalar keeps its previous value exactly when the corresponding
raw field is `null` or `undefined` and is overwritten otherwise. -/
theorem C8_conditional_append_frame (s : Sensor) (r : RawObj) (lbl : String) :
    (s.addMeasurement none lbl = s)
  ∧ ((s.addMeasurement (some r) lbl).tempData
      = trimWhile (s.tempData ++ (r.temp.asNumber).toList))
  ∧ ((s.addMeasurement (some r) lbl).co2Data
      = trimWhile (s.co2Data ++ (r.co2.asNumber).toList))
  ∧ ((s.addMeasurement (some r) lbl).humidityData
      = trimWhile (s.humidityData ++ (r.hum.asNumber).toList))
  ∧ ((s.addMeasurement (some r) lbl).pm25Data
      = trimWhile (s.pm25Data ++ (r.pm2_5.asNumber).toList))
  ∧ ((s.addMeasurement (some r) lbl).pm10Data
      = trimWhile (s.pm10Data ++ (r.pm10.asNumber).toList))
  ∧ ((s.addMeasurement (some r) lbl).pm03Data
      = trimWhile (s.pm03Data ++
          (match r.pm_3.asNumber with
            | some q => some q
            | none => r.pm0_3.asNumber).toList))
  ∧ ((s.addMeasurement (some r) lbl).pm1Data
      = trimWhile (s.pm1Data ++
          (match r.pm1_0.asNumber with
            | some q => some q
            | none => r.pm1.asNumber).toList))
  ∧ ((s.addMeasurement (some r) lbl).tvocData
      = trimWhile (s.tvocData ++ (r.tvoc.asNumber).toList))
  ∧ ((s.addMeasurement (some r) lbl).aqiData
      = trimWhile (s.aqiData ++ (r.aqi.asNumber).toList))
  ∧ ((s.addMeasurement (some r) lbl).coData
      = trimWhile (s.coData ++ (r.co.asNumber).toList))
  ∧ ((s.addMeasurement (some r) lbl).hchoData
      = trimWhile (s.hchoData ++ (r.hcho.asNumber).toList))
  ∧ ((s.addMeasurement (some r) lbl).timeLabels
      = trimWhile (s.timeLabels ++ [lbl]))
  ∧ ((s.addMeasurement (some r) lbl).humidity
      = if r.hum.nullish then s.humidity else r.hum)
  ∧ ((s.addMeasurement (some r) lbl).pm25
      = if r.pm2_5.nullish then s.pm25 else r.pm2_5)
  ∧ ((s.addMeasurement (some r) lbl).pm1_0
      = if r.pm1_0.nullish then s.pm1_0 else r.pm1_0)
  ∧ ((s.addMeasurement (some r) lbl).pm1
      = if r.pm1_0.nullish then (if r.pm1.nullish then s.pm1 else r.pm1)
        else r.pm1_0)
  ∧ ((s.addMeasurement (some r) lbl).tvoc
      = if r.tvoc.nullish then s.tvoc else r.tvoc)
  ∧ ((s.addMeasurement (some r) lbl).aqi
      = if r.aqi.nullish then s.aqi else r.aqi)
  ∧ ((s.addMeasurement (some r) lbl).co
      = if r.co.nullish then s.co else r.co)
  ∧ ((s.addMeasurement (some r) lbl).hcho
      = if r.hcho.nullish then s.hcho else r.hcho)
  ∧ ((s.addMeasurement (some r) lbl).pm10
      = if r.pm10.nullish then s.pm10 else r.pm10)
  ∧ ((s.addMeasurement (some r) lbl).pm03
      = if r.pm_3.nullish then (if r.pm0_3.nullish then s.pm03 else r.pm0_3)
        else r.pm_3) := by
  refine ⟨rfl, rfl, rfl, rfl, rfl, rfl, rfl, rfl, rfl, rfl, rfl, rfl, rfl,
    ?_, ?_, ?_, ?_, ?_, ?_, ?_, ?_, ?_, ?_⟩ <;>
    simp only [Sensor.addMeasurement, coalesce_eq_ite]

/-- The browser `localStorage` as far as the scripts read it: a key/value
map (`getItem` returns `null`, modelled `none`, for absent keys) together
with a flag saying whether access to the storage throws (private-mode
browsers); the code wraps every access in `try`. -/
structure Storage where
  get : String → Option String
  throws : Bool

/-- `localStorage.setItem k v`. -/
def Storage.set (st : Storage) (k v : String) : Storage :=
  { st with get := fun k' => if k' = k then some v else st.get k' }

/-- `localStorage.removeItem k`. -/
def Storage.remove (st : Storage) (k : String) : Storage :=
  { st with get := fun k' => if k' = k then none else st.get k' }

@[simp] theorem Storage.get_set (st : Storage) (k v k' : String) :
    (st.set k v).get k' = if k' = k then some v else st.get k' := rfl

@[simp] theorem Storage.get_remove (st : Storage) (k k' : String) :
    (st.remove k).get k' = if k' = k then none else st.get k' := rfl

/-- `__isAdmin()` (`DataMainpage.js` lines 39-49): inside a `try`, require
`isLoggedIn === 'true'`, then compare the lowercased `userRole` (empty
string when absent) with `'admin'`.  Any storage exception yields `false`. -/
def __isAdmin (st : Storage) : Bool :=
  if st.throws then false
  else if (st.get "isLoggedIn") ≠ some "true" then false
  else
    let _email := jsToLower ((st.get "userEmail").getD "")
    let role := jsToLower ((st.get "userRole").getD "")
    if role = "admin" then true else false

/-- C2: the client-side admin check returns `true` exactly when
`localStorage` reads do not throw, `isLoggedIn` is the string `'true'`, and
the lowercased `userRole` equals `'admin'`; in every other case it returns
`false`. -/
theorem C2_isAdmin_iff (st : Storage) :
    __isAdmin st = true ↔
      (st.throws = false ∧ st.get "isLoggedIn" = some "true"
        ∧ jsToLower ((st.get "userRole").getD "") = "admin") := by
  simp only [__isAdmin]
  split
  · next h => simp [h]
  · next h =>
    split
    · next h2 => simp_all
    · next h2 =>
      push_neg at h2
      split
      · next h3 => simp_all
      · next h3 => simp_all

/-- `cmpMapMetricToApi(metric)` (`DataMainpage.js` lines 721-729), the
metric-name mapper used by the comparison charts. -/
def cmpMapMetricToApi (metric : String) : String :=
  let m := jsToLower metric
  if m = "humidity" then "hum"
  else if m = "pm25" then "pm2_5"
  else if m = "pm03" ∨ m = "pm3" then "pm0_3"
  else if m = "pm1" then "pm1_0"
  else m

/-- `mapMetricToApi(metric)` (`DataMainpage.js` lines 1266-1273), the
metric-name mapper used by the history module. -/
def mapMetricToApi (metric : String) : String :=
  let m := jsToLower metric
  if m = "humidity" then "hum"
  else if m = "pm1" then "pm1_0"
  else if m = "pm25" then "pm2_5"
  else if m = "pm3" ∨ m = "pm03" then "pm0_3"
  else m

/-- C9: the comparison-chart metric mapper and the history metric mapper
agree on every input string. -/
theorem C9_metric_mappers_agree (metric : String) :
    cmpMapMetricToApi metric = mapMetricToApi metric := by
  simp only [cmpMapMetricToApi, mapMetricToApi]
  split_ifs <;> simp_all

/-- The GET request issued by `loadHistory` (`DataMainpage.js` lines
1337-1367): the range path segment, the device id and the backend metric
parameter. -/
structure HistoryRequest where
  basePath : String
  deviceId : String
  metric : String
deriving DecidableEq, Repr

/-- The request `loadHistory` builds from the selected range value, the
selected metric value and the sensor's device id (lines 1344, 1355-1360):
`range = rangeSel.value || 'day'`, `metric = metricSel.value || 'temp'`,
`basePath` chosen by the nested conditionals of line 1359, and the metric
mapped through `mapMetricToApi`. -/
def loadHistoryRequest (rangeVal metricVal deviceId : String) : HistoryRequest :=
  let range := if rangeVal = "" then "day" else rangeVal
  let metric := if metricVal = "" then "temp" else metricVal
  { basePath :=
      if range = "week" then "week"
      else if range = "month" then "month"
      else if range = "year" then "year"
      else "day"
    deviceId := deviceId
    metric := mapMetricToApi metric }

/-- The URL of line 1360, with `encodeURIComponent` abstracted as `enc`
(the base URL prefix is the deployment origin and is omitted). -/
def historyUrl (enc : String → String) (req : HistoryRequest) : String :=
  "/sensor/history/" ++ req.basePath ++ "/" ++ enc req.deviceId
    ++ "?metric=" ++ enc req.metric

/-- C4 (history range routing): for a selected (hence non-empty) metric,
`loadHistory` requests `/sensor/history/<r>/<deviceId>?metric=<m>` where `r`
is the selected range when it is one of `day`/`week`/`month`/`year` and
`day` otherwise, and `m` is `mapMetricToApi` of the selected metric; the
mapper sends `humidity ↦ hum`, `pm1 ↦ pm1_0`, `pm25 ↦ pm2_5`,
`pm3, pm03 ↦ pm0_3`, and every other key to its lowercased form. -/
theorem C4_history_routing (rangeVal metricVal deviceId : String)
    (enc : String → String) (hm : metricVal ≠ "") :
    ((loadHistoryRequest rangeVal metricVal deviceId).basePath
        = if rangeVal = "day" ∨ rangeVal = "week" ∨ rangeVal = "month"
            ∨ rangeVal = "year" then rangeVal else "day")
  ∧ ((loadHistoryRequest rangeVal metricVal deviceId).metric
        = mapMetricToApi metricVal)
  ∧ (historyUrl enc (loadHistoryRequest rangeVal metricVal deviceId)
      = "/sensor/history/"
        ++ (if rangeVal = "day" ∨ rangeVal = "week" ∨ rangeVal = "month"
              ∨ rangeVal = "year" then rangeVal else "day")
        ++ "/" ++ enc deviceId ++ "?metric=" ++ enc (mapMetricToApi metricVal))
  ∧ mapMetricToApi "humidity" = "hum"
  ∧ mapMetricToApi "pm1" = "pm1_0"
  ∧ mapMetricToApi "pm25" = "pm2_5"
  ∧ mapMetricToApi "pm3" = "pm0_3"
  ∧ mapMetricToApi "pm03" = "pm0_3"
  ∧ (jsToLower metricVal ∉ (["humidity", "pm1", "pm25", "pm3", "pm03"] : List String)
      → mapMetricToApi metricVal = jsToLower metricVal) := by
  have hbase : (loadHistoryRequest rangeVal metricVal deviceId).basePath
      = if rangeVal = "day" ∨ rangeVal = "week" ∨ rangeVal = "month"
          ∨ rangeVal = "year" then rangeVal else "day" := by
    simp only [loadHistoryRequest]
    by_cases h1 : rangeVal = ""
    · subst h1; decide
    · simp only [h1, if_false]
      split_ifs <;> simp_all
  have hmetric : (loadHistoryRequest rangeVal metricVal deviceId).metric
      = mapMetricToApi metricVal := by
    simp only [loadHistoryRequest, hm, if_false]
  refine ⟨hbase, hmetric, ?_, by decide, by decide, by decide, by decide,
    by decide, ?_⟩
  · simp only [historyUrl, hbase, hmetric]
    rfl
  · intro hnot
    simp only [List.mem_cons, List.not_mem_nil, or_false] at hnot
    push_neg at hnot
    obtain ⟨n1, n2, n3, n4, n5⟩ := hnot
    simp only [mapMetricToApi, n1, n2, n3, n4, n5, if_false, or_self,
      or_false, false_or, ite_false]

/-- Witness for C4 at the concrete inputs range `week`, metric `PM03`
(one of the special keys, case-insensitively) and `Temp` (an "other" key). -/
theorem C4_history_routing_witness :
    ((loadHistoryRequest "week" "PM03" "dev-1").basePath = "week"
      ∧ (loadHistoryRequest "week" "PM03" "dev-1").metric = mapMetricToApi "PM03")
  ∧ mapMetricToApi "Temp" = "temp" := by
  refine ⟨⟨?_, ?_⟩, ?_⟩
  · have h := (C4_history_routing "week" "PM03" "dev-1" (fun s => s)
      (by decide)).1
    simpa using h
  · exact (C4_history_routing "week" "PM03" "dev-1" (fun s => s)
      (by decide)).2.1
  · have h := (C4_history_routing "week" "Temp" "dev-1" (fun s => s)
      (by decide)).2.2.2.2.2.2.2.2 (by decide)
    exact h.trans rfl

/-- Truthiness of an optional JS string (absent/`null` and `''` are falsy). -/
def optTruthy : Option String → Bool
  | none => false
  | some s => s ≠ ""

/-- The optional `data.user` object of a `validateUser` response body
(`LoginLogic.js` lines 253-256): username and role, each possibly absent. -/
structure LoginUser where
  username : Option String
  role : Option String
deriving DecidableEq, Repr

/-- The parsed body of a `validateUser` response: whether `data.success` is
truthy, and the optional `data.user`. -/
structure LoginBody where
  success : Bool
  user : Option LoginUser
deriving DecidableEq, Repr

/-- Outcome of the `validateUser` request as the login branch sees it:
a network error (the `fetch` rejected), or an HTTP response with its `ok`
flag and either a parse failure from `response.json()` or a parsed body. -/
inductive LoginResponse where
  | netErr : LoginResponse
  | reply : Bool → Except Unit LoginBody → LoginResponse

/-- The login branch of the form submit handler (`LoginLogic.js` lines
229-268), acting on `localStorage`.  The guard of line 229 (empty email or
password) aborts before any request; a network or parse error is caught with
an alert and touches nothing; a non-ok response or falsy `data.success` only
alerts; on success the handler sets `isLoggedIn` and `userEmail`, removes any
previous `userRole`, stores `username`/`userRole` when the backend provides
truthy values, and falls back to the role `'Gast'` when `userRole` is still
unset. -/
def loginSubmit (email password : String) (resp : LoginResponse)
    (st : Storage) : Storage :=
  if email = "" ∨ password = "" then st
  else
    match resp with
    | .netErr => st
    | .reply ok body =>
      match body with
      | .error _ => st
      | .ok data =>
        if ok ∧ data.success then
          let st1 := (st.set "isLoggedIn" "true").set "userEmail" email
          let st2 := st1.remove "userRole"
          let st3 :=
            match data.user with
            | none => st2
            | some u =>
              let stA := if optTruthy u.username
                then st2.set "username" (u.username.getD "") else st2
              if optTruthy u.role then stA.set "userRole" (u.role.getD "")
              else stA
          if optTruthy (st3.get "userRole") then st3
          else st3.set "userRole" "Gast"
        else st

/-- Whether the login branch takes its success path: response `ok` and a
parsed body with truthy `success`. -/
def loginAccepted : LoginResponse → Bool
  | .reply true (.ok data) => data.success
  | _ => false

/-- C5 (login atomicity and role default): with non-empty email and password,
a failed response, a parse error or a network error leaves the whole storage
unchanged; on success `isLoggedIn` becomes `'true'`, `userEmail` the entered
email, `userRole` the backend-supplied truthy role and `'Gast'` otherwise
(independently of any previously stored role), `username` is untouched unless
the backend supplies a truthy username, and no other key changes. -/
theorem C5_login_atomicity (email password : String) (resp : LoginResponse)
    (st : Storage) (he : email ≠ "") (hp : password ≠ "") :
    (loginAccepted resp = false → loginSubmit email password resp st = st)
  ∧ (∀ data : LoginBody, resp = .reply true (.ok data) → data.success = true →
      ((loginSubmit email password resp st).get "isLoggedIn" = some "true"
      ∧ (loginSubmit email password resp st).get "userEmail" = some email
      ∧ (loginSubmit email password resp st).get "userRole" =
          (match data.user with
            | some u => if optTruthy u.role then some (u.role.getD "")
                        else some "Gast"
            | none => some "Gast")
      ∧ ((match data.user with
            | some u => optTruthy u.username = false
            | none => True) →
          (loginSubmit email password resp st).get "username"
            = st.get "username")
      ∧ (∀ k : String, k ≠ "isLoggedIn" → k ≠ "userEmail" → k ≠ "username"
          → k ≠ "userRole" →
          (loginSubmit email password resp st).get k = st.get k))) := by
  constructor
  · intro hacc
    simp only [loginSubmit, he, hp, or_self, if_false]
    match resp with
    | .netErr => rfl
    | .reply ok body =>
      match body with
      | .error _ => rfl
      | .ok data =>
        simp only
        split
        · next hcond =>
          obtain ⟨hok, hsucc⟩ := hcond
          subst hok
          simp [loginAccepted, hsucc] at hacc
        · rfl
  · intro data hresp hsucc
    subst hresp
    have hget : ∀ k : String,
        (loginSubmit email password (.reply true (.ok data)) st).get k =
          if k = "userRole" then
            (match data.user with
              | some u => if optTruthy u.role then some (u.role.getD "")
                          else some "Gast"
              | none => some "Gast")
          else if k = "username" then
            (match data.user with
              | some u => if optTruthy u.username
                          then some (u.username.getD "")
                          else st.get "username"
              | none => st.get "username")
          else if k = "userEmail" then some email
          else if k = "isLoggedIn" then some "true"
          else st.get k := by
      intro k
      rcases hdu : data.user with _ | ⟨un, ur⟩
      · simp only [loginSubmit, he, hp, or_self, if_false, hsucc, and_true,
          true_and, if_true, hdu]
        simp [optTruthy]
        split_ifs <;> simp_all
      · simp only [loginSubmit, he, hp, or_self, if_false, hsucc,
          and_true, true_and, if_true, hdu]
        cases un <;> cases ur
        · simp [optTruthy]
          split_ifs <;> simp_all
        · rename_i r
          by_cases hr : r = "" <;>
            (simp [optTruthy, hr]; split_ifs <;> simp_all)
        · rename_i n
          by_cases hn : n = "" <;>
            (simp [optTruthy, hn]; split_ifs <;> simp_all)
        · rename_i n r
          by_cases hn : n = "" <;> by_cases hr : r = "" <;>
            (simp [optTruthy, hn, hr]; split_ifs <;> simp_all)
    refine ⟨?_, ?_, ?_, ?_, ?_⟩
    · simpa using hget "isLoggedIn"
    · simpa using hget "userEmail"
    · simpa using hget "userRole"
    · intro hcond
      have h := hget "username"
      rcases hdu : data.user with _ | u
      · simpa [hdu] using h
      · rw [hdu] at hcond h
        simpa [hcond] using h
    · intro k h1 h2 h3 h4
      rw [hget k]
      simp [h1, h2, h3, h4]

/-- Witness for C5: a successful login with a backend role `Admin` stores
the role, and a network error leaves an empty storage empty. -/
theorem C5_login_atomicity_witness :
    ((loginSubmit "a@b.c" "pw"
        (.reply true (.ok ⟨true, some ⟨some "dom", some "Admin"⟩⟩))
        ⟨fun _ => none, false⟩).get "userRole" = some "Admin")
  ∧ (loginSubmit "a@b.c" "pw" .netErr ⟨fun _ => none, false⟩
      = ⟨fun _ => none, false⟩) := by
  constructor
  · have h := ((C5_login_atomicity "a@b.c" "pw"
      (.reply true (.ok ⟨true, some ⟨some "dom", some "Admin"⟩⟩))
      ⟨fun _ => none, false⟩ (by decide) (by decide)).2
      ⟨true, some ⟨some "dom", some "Admin"⟩⟩ rfl rfl).2.2.1
    simpa [optTruthy] using h
  · exact (C5_login_atomicity "a@b.c" "pw" .netErr
      ⟨fun _ => none, false⟩ (by decide) (by decide)).1 rfl

/-- One element of the `getAllDevices` response array, with every key the
code reads as a possibly-absent JS value (`DataMainpage.js` lines 222-252). -/
structure Device where
  device_id : JSVal := .undef
  DeviceID : JSVal := .undef
  id : JSVal := .undef
  deviceId : JSVal := .undef
  name : JSVal := .undef
  Name : JSVal := .undef
  device_name : JSVal := .undef
  status : JSVal := .undef
  Status : JSVal := .undef
  classroom_number : JSVal := .undef
  classroomNumber : JSVal := .undef
  ClassroomNumber : JSVal := .undef
  Classrooms_ClassroomNumber : JSVal := .undef
  classrooms_classroomNumber : JSVal := .undef
  room : JSVal := .undef
deriving DecidableEq, Repr

/-- `(dev.status !== undefined) ? dev.status : dev.Status` (line 223). -/
def rawStatus (dev : Device) : JSVal :=
  if dev.status ≠ JSVal.undef then dev.status else dev.Status

/-- The online test of line 224: the raw status is strictly equal to one of
`true`, `'true'`, `'online'`, `1`, `'1'`. -/
def deviceOnline (dev : Device) : Bool :=
  decide (rawStatus dev = .jbool true) || decide (rawStatus dev = .jstr "true")
    || decide (rawStatus dev = .jstr "online")
    || decide (rawStatus dev = .jnum 1) || decide (rawStatus dev = .jstr "1")

/-- `dev.device_id || dev.DeviceID || dev.id || dev.deviceId`
(lines 232, 248). -/
def devIdOf (dev : Device) : JSVal :=
  dev.device_id.jsOr (dev.DeviceID.jsOr (dev.id.jsOr dev.deviceId))

/-- The classroom fallback chain of lines 235/250 ending in `''`. -/
def devClassroomOf (dev : Device) : JSVal :=
  dev.classroom_number.jsOr (dev.classroomNumber.jsOr
    (dev.ClassroomNumber.jsOr (dev.Classrooms_ClassroomNumber.jsOr
      (dev.classrooms_classroomNumber.jsOr (dev.room.jsOr (.jstr ""))))))

/-- Metadata of an offline sensor stored for the dropdown
(lines 247-252). -/
structure OfflineMeta where
  deviceId : JSVal
  name : JSVal
  classroom : JSVal
  status : JSVal
deriving DecidableEq, Repr

/-- The module state mutated by `fetchDevices`: the `sensors` and
`offlineSensors` arrays and `activeSensorIndex` (lines 158-163). -/
structure DashState where
  sensors : List Sensor
  offlineSensors : List OfflineMeta
  activeSensorIndex : Int
deriving Repr

/-- The build loop of lines 230-245, threading the `forEach` index `i`:
each device contributes a freshly constructed `Sensor` unless its id chain is
falsy, in which case it is skipped (the index still advances). -/
def buildSensors : Nat → List Device → List Sensor
  | _, [] => []
  | i, dev :: rest =>
    if (devIdOf dev).truthy then
      mkSensor i (devIdOf dev)
          (dev.name.jsOr (dev.Name.jsOr (dev.device_name.jsOr
            (.jstr ("Sensor " ++ toString (i + 1))))))
          (devClassroomOf dev)
          ((rawStatus dev).coalesce (.jstr "unknown"))
        :: buildSensors (i + 1) rest
    else buildSensors (i + 1) rest

/-- The offline-list construction of lines 247-252 (`map` with index `j`
followed by `filter(d => !!d.deviceId)`), written with the filter fused into
the index-threading recursion. -/
def buildOffline : Nat → List Device → List OfflineMeta
  | _, [] => []
  | j, dev :: rest =>
    let entry : OfflineMeta :=
      { deviceId := devIdOf dev
        name := dev.name.jsOr (dev.Name.jsOr (dev.device_name.jsOr
          (.jstr ("Sensor (offline " ++ toString (j + 1) ++ ")"))))
        classroom := devClassroomOf dev
        status := (rawStatus dev).coalesce (.jbool false) }
    if entry.deviceId.truthy then entry :: buildOffline (j + 1) rest
    else buildOffline (j + 1) rest

/-- The parsed body of a `getAllDevices` response: whether `json.success`
is truthy and, when `json.data` is an array, its devices. -/
structure DevicesBody where
  success : Bool
  data : Option (List Device)

/-- Outcome of the `getAllDevices` request: network error, or an HTTP
response whose body either fails to parse or parses to a `DevicesBody`. -/
inductive DevicesResponse where
  | netErr : DevicesResponse
  | reply : Bool → Except Unit DevicesBody → DevicesResponse

/-- The body of `fetchDevices` (`DataMainpage.js` lines 209-264) before the
surrounding `catch`: a network error, a non-ok status (`throw new Error`) or
a JSON parse error escape as exceptions; a response without truthy `success`
or without an array `data` returns early leaving the state unchanged;
otherwise the devices are partitioned by the online test, the first
`SENSOR_COUNT` online ones become the new `sensors`, the offline ones (with
truthy ids) the new `offlineSensors`, and `activeSensorIndex` is clamped. -/
def fetchDevicesBody (resp : DevicesResponse) (st : DashState) :
    Except Unit DashState :=
  match resp with
  | .netErr => .error ()
  | .reply ok body =>
    if ok = false then .error ()
    else
      match body with
      | .error _ => .error ()
      | .ok json =>
        if json.success = false then .ok st
        else
          match json.data with
          | none => .ok st
          | some all =>
            let onlineRaw := all.filter (fun dev => deviceOnline dev)
            let offlineRaw := all.filter (fun dev => !deviceOnline dev)
            let devices := onlineRaw.take SENSOR_COUNT
            let sensors := buildSensors 0 devices
            let offline := buildOffline 0 offlineRaw
            let idx : Int :=
              if st.activeSensorIndex ≥ (sensors.length : Int) then
                (if sensors.length ≠ 0 then 0 else -1)
              else st.activeSensorIndex
            .ok { sensors := sensors, offlineSensors := offline,
                  activeSensorIndex := idx }

/-- `fetchDevices`: the body wrapped in its `try/catch` — every exception is
caught and logged, so the promise always resolves; on an exception the state
is untouched. -/
def fetchDevices (resp : DevicesResponse) (st : DashState) :
    Except Unit DashState :=
  match fetchDevicesBody resp st with
  | .ok st' => .ok st'
  | .error _ => .ok st

/-- The resolved state of `fetchDevices` (it never rejects). -/
def runFetchDevices (resp : DevicesResponse) (st : DashState) : DashState :=
  match fetchDevices resp st with
  | .ok st' => st'
  | .error _ => st

/-- The measurement object `m = payload.data || payload` extracted from a
`getCurrentData` response (line 294): `notObj` models a parsed payload that
is not an object (so `m` is falsy and the sensor is skipped). -/
inductive MeasPayload where
  | notObj : MeasPayload
  | obj : RawObj → MeasPayload

/-- Outcome of one `getCurrentData` request. -/
inductive MeasResponse where
  | netErr : MeasResponse
  | reply : Bool → Except Unit MeasPayload → MeasResponse

/-- Prepend a sensor to a loop result, preserving the error flag. -/
def consE (s : Sensor) :
    Except (List Sensor) (List Sensor) → Except (List Sensor) (List Sensor)
  | .ok l => .ok (s :: l)
  | .error l => .error (s :: l)

/-- The polling loop of `fetchLatestMeasurements` (lines 288-299): sensors
without a truthy id are skipped; a network error, non-ok status or parse
error throws, aborting the loop (sensors already updated keep their new
measurements, the `error` payload is the sensor list at that point); a
non-object payload is skipped; an object payload is fed to
`addMeasurement`. -/
def fetchLatestLoop (f : JSVal → MeasResponse) (label : String) :
    List Sensor → Except (List Sensor) (List Sensor)
  | [] => .ok []
  | s :: rest =>
    if s.deviceId.truthy = false then consE s (fetchLatestLoop f label rest)
    else
      match f s.deviceId with
      | .netErr => .error (s :: rest)
      | .reply ok body =>
        if ok = false then .error (s :: rest)
        else
          match body with
          | .error _ => .error (s :: rest)
          | .ok .notObj => consE s (fetchLatestLoop f label rest)
          | .ok (.obj m) =>
            consE (s.addMeasurement (some m) label)
              (fetchLatestLoop f label rest)

/-- `fetchLatestMeasurements` with its `try/catch`: the loop's exception is
caught and logged, so the promise always resolves, keeping whatever updates
happened before the failure. -/
def fetchLatestMeasurements (f : JSVal → MeasResponse) (label : String)
    (st : DashState) : Except Unit DashState :=
  match fetchLatestLoop f label st.sensors with
  | .ok l => .ok { st with sensors := l }
  | .error l => .ok { st with sensors := l }

theorem length_buildSensors_le (i : Nat) (devices : List Device) :
    (buildSensors i devices).length ≤ devices.length := by
  induction devices generalizing i with
  | nil => simp [buildSensors]
  | cons dev rest ih =>
    simp only [buildSensors, List.length_cons]
    split
    · simpa using Nat.succ_le_succ (ih (i + 1))
    · exact le_trans (ih (i + 1)) (Nat.le_succ _)

theorem mem_buildSensors (i : Nat) (devices : List Device) (s : Sensor)
    (h : s ∈ buildSensors i devices) :
    ∃ dev ∈ devices, (devIdOf dev).truthy = true
      ∧ s.deviceId = devIdOf dev := by
  induction devices generalizing i with
  | nil => simp [buildSensors] at h
  | cons dev rest ih =>
    simp only [buildSensors] at h
    split at h
    · next htr =>
      rcases List.mem_cons.mp h with hs | hs
      · exact ⟨dev, List.mem_cons_self _ _, htr, by rw [hs]; rfl⟩
      · obtain ⟨d, hd, ht, hid⟩ := ih (i + 1) hs
        exact ⟨d, List.mem_cons_of_mem _ hd, ht, hid⟩
    · obtain ⟨d, hd, ht, hid⟩ := ih (i + 1) h
      exact ⟨d, List.mem_cons_of_mem _ hd, ht, hid⟩

theorem mem_buildOffline_truthy (j : Nat) (devices : List Device)
    (o : OfflineMeta) (h : o ∈ buildOffline j devices) :
    o.deviceId.truthy = true := by
  induction devices generalizing j with
  | nil => simp [buildOffline] at h
  | cons dev rest ih =>
    simp only [buildOffline] at h
    split at h
    · next htr =>
      rcases List.mem_cons.mp h with hs | hs
      · rw [hs]; exact htr
      · exact ih (j + 1) hs
    · exact ih (j + 1) h

theorem buildOffline_complete (j : Nat) (devices : List Device)
    (dev : Device) (hmem : dev ∈ devices)
    (htr : (devIdOf dev).truthy = true) :
    ∃ o ∈ buildOffline j devices, o.deviceId = devIdOf dev := by
  induction devices generalizing j with
  | nil => simp at hmem
  | cons d rest ih =>
    rcases List.mem_cons.mp hmem with hd | hd
    · subst hd
      simp only [buildOffline]
      rw [if_pos htr]
      exact ⟨_, List.mem_cons_self _ _, rfl⟩
    · obtain ⟨o, ho, hid⟩ := ih (j + 1) hd
      simp only [buildOffline]
      split
      · exact ⟨o, List.mem_cons_of_mem _ ho, hid⟩
      · exact ⟨o, ho, hid⟩

/-- C3 (bounded online/offline partition): on a successful device-list
response, a device is online exactly when its status (with `Status`
fallback) is strictly equal to one of `true`, `'true'`, `'online'`, `1`,
`'1'`; at most `SENSOR_COUNT` online devices become `sensors`, every sensor
and every offline entry carries a truthy device id (devices with a falsy id
chain are skipped), and every offline device with a truthy id appears in
`offlineSensors`. -/
theorem C3_online_partition (devs : List Device) (st st' : DashState)
    (h : st' = runFetchDevices (.reply true (.ok ⟨true, some devs⟩)) st) :
    (∀ dev : Device, deviceOnline dev = true ↔
      (rawStatus dev = .jbool true ∨ rawStatus dev = .jstr "true"
        ∨ rawStatus dev = .jstr "online" ∨ rawStatus dev = .jnum 1
        ∨ rawStatus dev = .jstr "1"))
  ∧ st'.sensors.length ≤ SENSOR_COUNT
  ∧ (∀ s ∈ st'.sensors, ∃ dev ∈ devs, deviceOnline dev = true
      ∧ (devIdOf dev).truthy = true ∧ s.deviceId = devIdOf dev)
  ∧ (∀ o ∈ st'.offlineSensors, o.deviceId.truthy = true)
  ∧ (∀ dev ∈ devs, deviceOnline dev = false → (devIdOf dev).truthy = true →
      ∃ o ∈ st'.offlineSensors, o.deviceId = devIdOf dev) := by
  have hs : st'.sensors =
      buildSensors 0 ((devs.filter fun d => deviceOnline d).take SENSOR_COUNT) := by
    rw [h]; rfl
  have ho : st'.offlineSensors =
      buildOffline 0 (devs.filter fun d => !deviceOnline d) := by
    rw [h]; rfl
  refine ⟨?_, ?_, ?_, ?_, ?_⟩
  · intro dev
    simp [deviceOnline, or_assoc]
  · rw [hs]
    exact le_trans (length_buildSensors_le _ _) (List.length_take_le _ _)
  · intro s hsm
    rw [hs] at hsm
    obtain ⟨dev, hdev, htr, hid⟩ := mem_buildSensors _ _ _ hsm
    have hdev' : dev ∈ devs.filter (fun d => deviceOnline d) :=
      (List.take_sublist _ _).subset hdev
    have hd := List.mem_filter.mp hdev'
    exact ⟨dev, hd.1, hd.2, htr, hid⟩
  · intro o hom
    rw [ho] at hom
    exact mem_buildOffline_truthy _ _ _ hom
  · intro dev hdev hoff htr
    have hdev' : dev ∈ devs.filter (fun d => !deviceOnline d) :=
      List.mem_filter.mpr ⟨hdev, by simp [hoff]⟩
    rw [ho]
    exact buildOffline_complete 0 _ dev hdev' htr

/-- Witness for C3: one online device (status `'online'`), one offline
device (status `false`) and one online device without any id key. -/
theorem C3_online_partition_witness :
    ((runFetchDevices (.reply true (.ok ⟨true,
        some [{ device_id := .jstr "A", status := .jstr "online" },
              { device_id := .jstr "B", status := .jbool false },
              { status := .jbool true }]⟩))
      ⟨[], [], 0⟩).sensors.length ≤ SENSOR_COUNT)
  ∧ (∃ o ∈ (runFetchDevices (.reply true (.ok ⟨true,
        some [{ device_id := .jstr "A", status := .jstr "online" },
              { device_id := .jstr "B", status := .jbool false },
              { status := .jbool true }]⟩))
      ⟨[], [], 0⟩).offlineSensors,
      o.deviceId = devIdOf { device_id := .jstr "B", status := .jbool false }) := by
  constructor
  · exact (C3_online_partition _ ⟨[], [], 0⟩ _ rfl).2.1
  · exact (C3_online_partition _ ⟨[], [], 0⟩ _ rfl).2.2.2.2
      { device_id := .jstr "B", status := .jbool false }
      (by simp) (by decide) (by decide)

/-- C6 (best-effort failure containment): both fetchers always resolve
(the `Except` result is `ok` for every input), and every failure mode of
`fetchDevices` — network error, non-ok HTTP status, JSON parse error, or a
response without truthy `success` and an array `data` — leaves the sensor
state unchanged. -/
theorem C6_failure_containment (resp : DevicesResponse) (st : DashState)
    (f : JSVal → MeasResponse) (label : String) :
    ((fetchDevices resp st).isOk = true)
  ∧ ((fetchLatestMeasurements f label st).isOk = true)
  ∧ (resp = .netErr → fetchDevices resp st = .ok st)
  ∧ (∀ body, resp = .reply false body → fetchDevices resp st = .ok st)
  ∧ (∀ ok e, resp = .reply ok (.error e) → fetchDevices resp st = .ok st)
  ∧ (∀ ok json, resp = .reply ok (.ok json) → json.success = false →
      fetchDevices resp st = .ok st)
  ∧ (∀ ok json, resp = .reply ok (.ok json) → json.data = none →
      fetchDevices resp st = .ok st) := by
  refine ⟨?_, ?_, ?_, ?_, ?_, ?_, ?_⟩
  · cases hb : fetchDevicesBody resp st <;> simp [fetchDevices, hb, Except.isOk, Except.toBool]
  · cases hb : fetchLatestLoop f label st.sensors <;>
      simp [fetchLatestMeasurements, hb, Except.isOk, Except.toBool]
  · intro h; subst h; rfl
  · intro body h; subst h; cases body <;> rfl
  · intro ok e h; subst h; cases ok <;> rfl
  · intro ok json h hsucc
    subst h
    cases ok
    · rfl
    · simp [fetchDevices, fetchDevicesBody, hsucc]
  · intro ok json h hdata
    subst h
    cases ok
    · rfl
    · cases hjs : json.success <;>
        simp [fetchDevices, fetchDevicesBody, hjs, hdata]

/-- Witness for C6: a concrete non-ok HTTP response and a failed
measurements poll both resolve and leave the state unchanged. -/
theorem C6_failure_containment_witness :
    (fetchDevices (.reply false (.ok ⟨true, some []⟩)) ⟨[], [], 0⟩
        = .ok ⟨[], [], 0⟩)
  ∧ ((fetchLatestMeasurements (fun _ => .netErr) "10:00" ⟨[], [], 0⟩).isOk
        = true) := by
  constructor
  · exact (C6_failure_containment (.reply false (.ok ⟨true, some []⟩))
      ⟨[], [], 0⟩ (fun _ => .netErr) "10:00").2.2.2.1 (.ok ⟨true, some []⟩) rfl
  · exact (C6_failure_containment (.reply false (.ok ⟨true, some []⟩))
      ⟨[], [], 0⟩ (fun _ => .netErr) "10:00").2.1

/-- One cached history point (`loadHistory` caches `body.data`): the ISO
timestamp, the aggregated average and the sample count.  `avg`/`n` are
`none` for JSON `null`/absent (the code tests `== null`); JSON numbers are
carried in the string form `String(...)` later gives them. -/
structure HistPoint where
  ts : Option String
  avg : Option String
  n : Option String
deriving DecidableEq, Repr

/-- The cached export metadata `lastHistoryMeta` (line 1423). -/
structure HistMeta where
  deviceId : String
  sensorName : String
  room : String
  metric : String
  range : String
  unit : String
deriving DecidableEq, Repr

/-- The module state read by the exporters: the cached series and
metadata. -/
structure HistState where
  lastHistorySeries : List HistPoint
  lastHistoryMeta : Option HistMeta
deriving DecidableEq, Repr

/-- `s.includes('"') || s.includes(sep) || s.includes('\n')`
(line 1469, `sep = ';'`). -/
def csvNeedsQuote (s : String) : Bool :=
  s.data.contains '"' || s.data.contains ';' || s.data.contains '\n'

/-- `s.replace(/"/g, '""')` at character level. -/
def escQuotesChars : List Char → List Char
  | [] => []
  | c :: rest =>
    if c = '"' then '"' :: '"' :: escQuotesChars rest
    else c :: escQuotesChars rest

/-- The per-field escaping of lines 1467-1473: wrap in double quotes with
inner quotes doubled exactly when the field contains `"`, the separator
`;`, or a newline. -/
def csvEscape (s : String) : String :=
  if csvNeedsQuote s then "\"" ++ ⟨escQuotesChars s.data⟩ ++ "\"" else s

/-- `Array.prototype.join(sep)`. -/
def joinWith (sep : String) : List String → String
  | [] => ""
  | [x] => x
  | x :: xs => x ++ sep ++ joinWith sep xs

/-- One emitted CSV row: escape each field and join with `;`. -/
def csvLine (r : List String) : String := joinWith ";" (r.map csvEscape)

/-- The whole CSV text: rows joined with newlines (line 1473). -/
def csvOf (rows : List (List String)) : String :=
  joinWith "\n" (rows.map csvLine)

/-- The German header row of line 1452. -/
def csvHeader : List String :=
  ["Zeitstempel (ISO)", "Zeit (Lokal Wien)", "Wert", "Anzahl",
   "Messgröße", "Einheit", "Sensor", "Raum", "Device ID", "Zeitraum"]

/-- One data row (lines 1454-1463): `ts = p.ts || ''`, the locale-formatted
time (`new Date(...).toLocaleString` abstracted as `localFmt`), the average
and count with `''` for `null`, then the metadata fields. -/
def histRow (localFmt : String → String) (meta : HistMeta) (p : HistPoint) :
    List String :=
  let ts := p.ts.getD ""
  [ts, localFmt ts, p.avg.getD "", p.n.getD "", meta.metric, meta.unit,
   meta.sensorName, meta.room, meta.deviceId, meta.range]

/-- The UTF-8 byte-order mark prepended to the blob (line 1474). -/
def csvBom : String := "\uFEFF"

/-- `exportHistoryCSV` (lines 1435-1486) as a function from the admin-check
outcome (`none` models the check throwing, which the `catch` turns into a
plain return), the locale formatter and the cached state, to the (unchanged)
state and the produced file content, `none` when nothing is exported.  The
DOM work of triggering the download is outside the model. -/
def exportHistoryCSV (admin : Option Bool) (localFmt : String → String)
    (st : HistState) : HistState × Option String :=
  match admin with
  | none => (st, none)
  | some false => (st, none)
  | some true =>
    if st.lastHistorySeries.isEmpty then (st, none)
    else
      match st.lastHistoryMeta with
      | none => (st, none)
      | some meta =>
        let rows := csvHeader :: st.lastHistorySeries.map (histRow localFmt meta)
        (st, some (csvBom ++ csvOf rows))

/-- C7 (CSV exporter output): when the admin check passes and a non-empty
series with metadata is cached, the exported text is the BOM followed by
exactly one ten-column header row and one row per cached point in series
order, each row holding `[ISO ts, localized time, avg ('' when null),
n ('' when null), metric, unit, sensor, room, device id, range]`; when the
admin check fails/throws or nothing is cached, no file is produced; the
cached series and metadata are unchanged in every case. -/
theorem C7_export_csv (admin : Option Bool) (localFmt : String → String)
    (st : HistState) :
    ((exportHistoryCSV admin localFmt st).1 = st)
  ∧ (∀ meta, admin = some true → st.lastHistoryMeta = some meta →
      st.lastHistorySeries ≠ [] →
      (exportHistoryCSV admin localFmt st).2 =
        some (csvBom ++ csvOf (csvHeader ::
          st.lastHistorySeries.map (histRow localFmt meta))))
  ∧ (csvHeader.length = 10)
  ∧ (∀ meta p, histRow localFmt meta p =
      [p.ts.getD "", localFmt (p.ts.getD ""), p.avg.getD "", p.n.getD "",
       meta.metric, meta.unit, meta.sensorName, meta.room, meta.deviceId,
       meta.range])
  ∧ (admin ≠ some true → (exportHistoryCSV admin localFmt st).2 = none)
  ∧ (st.lastHistorySeries = [] → (exportHistoryCSV admin localFmt st).2 = none)
  ∧ (st.lastHistoryMeta = none → (exportHistoryCSV admin localFmt st).2 = none) := by
  refine ⟨?_, ?_, rfl, fun _ _ => rfl, ?_, ?_, ?_⟩
  · rcases admin with _ | b
    · rfl
    · cases b
      · rfl
      · simp only [exportHistoryCSV]
        split
        · rfl
        · split <;> rfl
  · intro meta ha hm hne
    subst ha
    have hemp : st.lastHistorySeries.isEmpty = false := by
      simpa using hne
    simp only [exportHistoryCSV, hemp, Bool.false_eq_true, if_false, hm]
  · intro hne
    rcases admin with _ | b
    · rfl
    · cases b
      · rfl
      · exact absurd rfl hne
  · intro hser
    rcases admin with _ | b
    · rfl
    · cases b
      · rfl
      · simp [exportHistoryCSV, hser]
  · intro hmeta
    rcases admin with _ | b
    · rfl
    · cases b
      · rfl
      · simp only [exportHistoryCSV, hmeta]
        split <;> rfl

/-- Witness for C7: a two-point series for an admin produces the expected
joined CSV text, and a guest gets nothing. -/
theorem C7_export_csv_witness :
    ((exportHistoryCSV (some true) (fun _ => "t")
        ⟨[⟨some "2025-01-01T00:00:00Z", some "21.5", some "12"⟩,
          ⟨some "2025-01-01T01:00:00Z", none, none⟩],
         some ⟨"dev-1", "S1", "R1", "temp", "day", "°C"⟩⟩).2 =
      some (csvBom ++ csvOf (csvHeader ::
        [["2025-01-01T00:00:00Z", "t", "21.5", "12", "temp", "°C", "S1",
          "R1", "dev-1", "day"],
         ["2025-01-01T01:00:00Z", "t", "", "", "temp", "°C", "S1", "R1",
          "dev-1", "day"]])))
  ∧ ((exportHistoryCSV (some false) (fun _ => "t")
        ⟨[⟨some "2025-01-01T00:00:00Z", some "21.5", some "12"⟩], none⟩).2
      = none) := by
  constructor
  · have h := (C7_export_csv (some true) (fun _ => "t")
      ⟨[⟨some "2025-01-01T00:00:00Z", some "21.5", some "12"⟩,
        ⟨some "2025-01-01T01:00:00Z", none, none⟩],
       some ⟨"dev-1", "S1", "R1", "temp", "day", "°C"⟩⟩).2.1
      ⟨"dev-1", "S1", "R1", "temp", "day", "°C"⟩ rfl rfl (by simp)
    simpa [histRow] using h
  · exact (C7_export_csv (some false) (fun _ => "t")
      ⟨[⟨some "2025-01-01T00:00:00Z", some "21.5", some "12"⟩], none⟩).2.2.2.2.1
      (by simp)

/-- Parsing one emitted CSV row back (the claim's reading direction): scan
left to right, split on `;` outside quotes, collapse doubled quotes inside
quotes. `inQ` says whether the scanner is inside a quoted section, `cur` is
the field collected so far. -/
def parseCsvChars : List Char → Bool → List Char → List (List Char)
  | [], _, cur => [cur]
  | '"' :: '"' :: rest, true, cur => parseCsvChars rest true (cur ++ ['"'])
  | '"' :: rest, true, cur => parseCsvChars rest false cur
  | '"' :: rest, false, cur => parseCsvChars rest true cur
  | ';' :: rest, false, cur => cur :: parseCsvChars rest false []
  | c :: rest, inQ, cur => parseCsvChars rest inQ (cur ++ [c])

/-- Parse a CSV row string into its fields. -/
def parseCsvLine (s : String) : List String :=
  (parseCsvChars s.data false []).map fun cs => ⟨cs⟩

theorem parse_openQuote (X cur : List Char) :
    parseCsvChars ('"' :: X) false cur = parseCsvChars X true cur := by
  simp [parseCsvChars]

theorem parse_semi (X cur : List Char) :
    parseCsvChars (';' :: X) false cur = cur :: parseCsvChars X false [] := by
  simp [parseCsvChars]

theorem parse_unquoted (f : List Char) (rest cur : List Char)
    (hf : ∀ c ∈ f, c ≠ '"' ∧ c ≠ ';') :
    parseCsvChars (f ++ rest) false cur
      = parseCsvChars rest false (cur ++ f) := by
  induction f generalizing cur with
  | nil => simp
  | cons c f' ih =>
    obtain ⟨hq, hs⟩ := hf c (List.mem_cons_self _ _)
    have hf' : ∀ c ∈ f', c ≠ '"' ∧ c ≠ ';' :=
      fun c hc => hf c (List.mem_cons_of_mem _ hc)
    rw [List.cons_append]
    have hstep : parseCsvChars (c :: (f' ++ rest)) false cur
        = parseCsvChars (f' ++ rest) false (cur ++ [c]) := by
      simp [parseCsvChars, hq, hs]
    rw [hstep, ih (cur ++ [c]) hf']
    simp

theorem parse_quoted (f : List Char) (rest cur : List Char)
    (hrest : rest = [] ∨ ∃ rest', rest = ';' :: rest') :
    parseCsvChars (escQuotesChars f ++ '"' :: rest) true cur
      = parseCsvChars rest false (cur ++ f) := by
  induction f generalizing cur with
  | nil =>
    simp only [escQuotesChars, List.nil_append, List.append_nil]
    rcases hrest with h | ⟨rest', h⟩ <;> subst h <;> simp [parseCsvChars]
  | cons c f' ih =>
    by_cases hc : c = '"'
    · subst hc
      rw [show escQuotesChars ('"' :: f') = '"' :: '"' :: escQuotesChars f'
        from by simp [escQuotesChars], List.cons_append, List.cons_append]
      have hstep : parseCsvChars
          ('"' :: '"' :: (escQuotesChars f' ++ '"' :: rest)) true cur
          = parseCsvChars (escQuotesChars f' ++ '"' :: rest) true
              (cur ++ ['"']) := by
        simp [parseCsvChars]
      rw [hstep, ih (cur ++ ['"'])]
      simp
    · simp only [escQuotesChars, if_neg hc, List.cons_append]
      have hstep : parseCsvChars
          (c :: (escQuotesChars f' ++ '"' :: rest)) true cur
          = parseCsvChars (escQuotesChars f' ++ '"' :: rest) true
              (cur ++ [c]) := by
        simp [parseCsvChars, hc]
      rw [hstep, ih (cur ++ [c])]
      simp

theorem csvEscape_data_quoted (f : String) (h : csvNeedsQuote f = true) :
    (csvEscape f).data = '"' :: (escQuotesChars f.data ++ ['"']) := by
  simp only [csvEscape, h, if_true]
  rw [String.data_append, String.data_append]
  rfl

theorem csvEscape_not_quoted (f : String) (h : csvNeedsQuote f = false) :
    csvEscape f = f := by
  simp [csvEscape, h]

theorem not_mem_of_not_needsQuote (f : String) (h : csvNeedsQuote f = false) :
    ∀ c ∈ f.data, c ≠ '"' ∧ c ≠ ';' := by
  intro c hc
  simp only [csvNeedsQuote, Bool.or_eq_false_iff] at h
  obtain ⟨⟨h1, h2⟩, h3⟩ := h
  simp at h1 h2
  constructor
  · intro he; subst he; exact absurd hc h1
  · intro he; subst he; exact absurd hc h2

theorem parse_field (f : String) (rest cur : List Char)
    (hrest : rest = [] ∨ ∃ rest', rest = ';' :: rest') :
    parseCsvChars ((csvEscape f).data ++ rest) false cur
      = parseCsvChars rest false (cur ++ f.data) := by
  by_cases h : csvNeedsQuote f
  · rw [csvEscape_data_quoted f h, List.cons_append, List.append_assoc]
    rw [parse_openQuote]
    simpa using parse_quoted f.data rest cur hrest
  · rw [csvEscape_not_quoted f (by simpa using h)]
    exact parse_unquoted f.data rest cur
      (not_mem_of_not_needsQuote f (by simpa using h))

theorem csvLine_cons_data (f g : String) (gs : List String) :
    (csvLine (f :: g :: gs)).data
      = (csvEscape f).data ++ ';' :: (csvLine (g :: gs)).data := by
  show (joinWith ";" (csvEscape f :: csvEscape g :: gs.map csvEscape)).data = _
  rw [show joinWith ";" (csvEscape f :: csvEscape g :: gs.map csvEscape)
      = csvEscape f ++ ";" ++ joinWith ";" (csvEscape g :: gs.map csvEscape)
    from rfl]
  rw [String.data_append, String.data_append]
  rw [show (";" : String).data = [';'] from by decide]
  simp [csvLine, List.append_assoc]

theorem parse_csvLine_chars :
    ∀ (fields : List String), fields ≠ [] →
      parseCsvChars (csvLine fields).data false [] = fields.map String.data := by
  intro fields
  induction fields with
  | nil => intro h; exact absurd rfl h
  | cons f gs ih =>
    intro _
    cases gs with
    | nil =>
      show parseCsvChars (csvEscape f).data false [] = [f.data]
      have h := parse_field f [] [] (Or.inl rfl)
      simpa [parseCsvChars] using h
    | cons g gs' =>
      rw [csvLine_cons_data, parse_field f _ [] (Or.inr ⟨_, rfl⟩),
        List.nil_append, parse_semi, ih (by simp)]
      rfl

/-- C10 (CSV quoting round-trip): a field is wrapped in quotes (first and
last character `"` with length at least 2) exactly when it contains `"`,
`;` or a newline; and parsing an emitted row — splitting on `;` outside
quotes and collapsing doubled quotes — recovers exactly the original
fields. -/
theorem C10_csv_quoting_roundtrip :
    (∀ f : String,
      (2 ≤ (csvEscape f).length ∧ (csvEscape f).data.head? = some '"'
        ∧ (csvEscape f).data.getLast? = some '"')
      ↔ csvNeedsQuote f = true)
  ∧ (∀ fields : List String, fields ≠ [] →
      parseCsvLine (csvLine fields) = fields) := by
  constructor
  · intro f
    by_cases h : csvNeedsQuote f
    · simp only [h, iff_true]
      rw [show (csvEscape f).length = (csvEscape f).data.length from rfl,
        csvEscape_data_quoted f h]
      refine ⟨by simp, rfl, ?_⟩
      rw [show ('"' :: (escQuotesChars f.data ++ ['"']))
          = ('"' :: escQuotesChars f.data) ++ ['"'] from rfl]
      exact List.getLast?_concat _
    · have h' : csvNeedsQuote f = false := by simpa using h
      simp only [h', Bool.false_eq_true, iff_false]
      rintro ⟨hlen, hhead, hlast⟩
      rw [csvEscape_not_quoted f h'] at hlen hhead hlast
      cases hd : f.data with
      | nil =>
        rw [show f.length = f.data.length from rfl, hd] at hlen
        simp at hlen
      | cons c l =>
        rw [hd] at hhead
        simp only [List.head?_cons, Option.some.injEq] at hhead
        subst hhead
        have hmem : '"' ∈ f.data := by rw [hd]; exact List.mem_cons_self _ _
        exact absurd hmem ((not_mem_of_not_needsQuote f h' '"' hmem).1 rfl
          |>.elim)
  · intro fields hne
    have h := parse_csvLine_chars fields hne
    simp only [parseCsvLine, h, List.map_map]
    have : (String.mk ∘ String.data) = id := by
      funext s; rfl
    simp [this]

/-- Witness for C10: a row with a separator-containing, a quote-containing
and a plain field round-trips. -/
theorem C10_csv_quoting_roundtrip_witness :
    parseCsvLine (csvLine ["a;b", "c\"d", "plain", ""]) =
      ["a;b", "c\"d", "plain", ""] :=
  C10_csv_quoting_roundtrip.2 ["a;b", "c\"d", "plain", ""] (by simp)

end Virtuyal
